import Mathlib

/-!
Verification of the carValueAi backend (app.py, train_model.py) against its
natural-language specification.  The Flask handlers are shallowly embedded as
pure functions over an explicit application state; the external libraries
(hmac/hashlib, bcrypt, jwt, the Razorpay gateway and MongoDB) are modelled as
an abstract environment of functions and an in-memory record store, exactly
following the control flow of the Python source.  Numbers coming from JSON are
modelled as Int (years) and Rat (measurements, prices before truncation).
-/

namespace CarValueAI

/-! ## Label encoders (train_model.py, sklearn LabelEncoder) -/

/-- A fitted sklearn LabelEncoder: the list of classes seen at training time.
The learned integer code of a label is its index in `classes`. -/
structure LabelEncoder where
  classes : List String
deriving DecidableEq

/-- `encoder.transform([value])[0]`: the learned code of a known label (its
position in the class list), or a ValueError for a label that was not seen at
training time. -/
def encoderTransform (enc : LabelEncoder) (value : String) : Except String Nat :=
  if value ∈ enc.classes then Except.ok (enc.classes.indexOf value)
  else Except.error "ValueError"

/-- app.py `safe_encode_label`: try `encoder.transform`, and on ValueError
return the default code 0. -/
def safe_encode_label (enc : LabelEncoder) (value : String) : Nat :=
  match encoderTransform enc value with
  | Except.ok i => i
  | Except.error _ => 0

/-- The five categorical encoders stored in the artifact bundle
(`label_encoders` in train_model.py / app.py). -/
structure Encoders where
  name : LabelEncoder
  fuel : LabelEncoder
  seller_type : LabelEncoder
  transmission : LabelEncoder
  owner : LabelEncoder
deriving DecidableEq

/-! ## Feature preparation (app.py `prepare_features`) -/

/-- Python truthiness test for an optional JSON number: a field is falsy when
it is absent or equal to zero.  Used by the `not data[k]` checks. -/
def falsyNum : Option Rat → Bool
  | none => true
  | some x => x == 0

/-- Python truthiness test for an optional JSON string: absent or empty. -/
def falsyStr : Option String → Bool
  | none => true
  | some s => s.isEmpty

/-- The prediction input after the required-field check of the handler:
required fields are present, the four optional fields may be absent. -/
structure CarInput where
  name : String
  year : Int
  km_driven : Rat
  fuel : String
  seller_type : String
  transmission : String
  owner : String
  mileage : Option Rat
  engine : Option Rat
  max_power : Option Rat
  seats : Option Rat
deriving DecidableEq

/-- `mileage_map.get(data['fuel'], 18)` in `prepare_features`. -/
def mileage_map_get (fuel : String) : Rat :=
  if fuel == "Petrol" then 18
  else if fuel == "Diesel" then 22
  else if fuel == "CNG" then 25
  else if fuel == "Electric" then 30
  else 18

/-- app.py `prepare_features`: derives car_age, km_per_year and
power_efficiency, fills defaults for absent or falsy optional fields, encodes
the categorical fields, and returns the feature row in the order used by
train_model.py.  The division `km_driven / (car_age + 1)` is performed first
in the source; when the divisor is zero Python raises ZeroDivisionError,
modelled as an `Except.error "division by zero"`. -/
def prepare_features (encs : Encoders) (data : CarInput) : Except String (List Rat) :=
  let current_year : Int := 2024
  let car_age : Int := current_year - data.year
  if car_age + 1 == 0 then Except.error "division by zero" else
  let km_per_year : Rat := data.km_driven / ((car_age : Rat) + 1)
  let mileage : Rat :=
    if falsyNum data.mileage then mileage_map_get data.fuel else data.mileage.getD 0
  let engine : Rat :=
    if falsyNum data.engine then 1200 else data.engine.getD 0
  let max_power : Rat :=
    if falsyNum data.max_power then engine * (7 / 100) else data.max_power.getD 0
  let seats : Rat :=
    if falsyNum data.seats then 5 else data.seats.getD 0
  let power_efficiency : Rat := max_power / engine
  let name_encoded := safe_encode_label encs.name data.name
  let fuel_encoded := safe_encode_label encs.fuel data.fuel
  let seller_type_encoded := safe_encode_label encs.seller_type data.seller_type
  let transmission_encoded := safe_encode_label encs.transmission data.transmission
  let owner_encoded := safe_encode_label encs.owner data.owner
  Except.ok [
    (data.year : Rat),
    data.km_driven,
    mileage,
    engine,
    max_power,
    seats,
    (car_age : Rat),
    km_per_year,
    power_efficiency,
    (name_encoded : Rat),
    (fuel_encoded : Rat),
    (seller_type_encoded : Rat),
    (transmission_encoded : Rat),
    (owner_encoded : Rat)
  ]

/-! ## Model artifacts (app.py module-level `artifacts` bundle) -/

/-- The artifact bundle loaded from model_artifacts.pkl: the fitted regression
model and the fitted scaler are opaque fitted functions, carried as plain Lean
functions; the label encoders and feature column order are concrete data. -/
structure ModelArtifacts where
  predictFn : List Rat → Rat
  scalerTransform : List Rat → List Rat
  label_encoders : Encoders
  feature_cols : List String

/-- The module-level try/except around `pickle.load`: a load failure leaves
`model = None` and the process keeps running. -/
def load_model (r : Except String ModelArtifacts) : Option ModelArtifacts :=
  match r with
  | Except.ok a => some a
  | Except.error _ => none

/-! ## Stored records (MongoDB collections) -/

/-- A document of the `users` collection. -/
structure UserRec where
  user_id : String
  name : String
  email : String
  password : String
  created_at : Nat
  last_login : Option Nat
deriving DecidableEq

/-- A document of the `cars` collection (one per prediction call). -/
structure CarRec where
  car_id : String
  user_id : String
  car_details : CarInput
  predicted_price : Int
  created_at : Nat
deriving DecidableEq

/-- A document of the `payments` collection. -/
structure PaymentRec where
  order_id : String
  amount : Int
  user_id : String
  car_id : Option String
  customer_name : Option String
  customer_email : Option String
  customer_phone : Option String
  status : String
  payment_id : Option String
  signature : Option String
  verified_at : Option Nat
  created_at : Nat
deriving DecidableEq

/-- A document of the `bookings` collection. -/
structure BookingRec where
  booking_id : String
  user_id : String
  car_id : Option String
  order_id : Option String
  customer_name : Option String
  customer_email : Option String
  customer_phone : Option String
  address : Option String
  inspection_date : Option String
  inspection_time : Option String
  status : String
  created_at : Nat
deriving DecidableEq

/-- The mutable module-level state of app.py: the four collections, the
MongoDB connection flag, the loaded model bundle (None when loading failed)
and whether the Razorpay client was initialized. -/
structure AppState where
  users : List UserRec
  cars : List CarRec
  payments : List PaymentRec
  bookings : List BookingRec
  mongodb_connected : Bool
  model : Option ModelArtifacts
  razorpay_configured : Bool

/-- The state right after startup: empty collections, flags as produced by
initialization. -/
def initState (connected : Bool) (m : Option ModelArtifacts) (rz : Bool) : AppState :=
  { users := [], cars := [], payments := [], bookings := [],
    mongodb_connected := connected, model := m, razorpay_configured := rz }

/-- `collections['payments'].find_one({'order_id': k})`. -/
def findPayment (ps : List PaymentRec) (k : String) : Option PaymentRec :=
  ps.find? (fun p => p.order_id == k)

/-- `collections['payments'].update_one({'order_id': k}, ...)`: apply `f` to
the first document whose order_id is `k`, leave everything else unchanged. -/
def updatePayment (ps : List PaymentRec) (k : String) (f : PaymentRec → PaymentRec) :
    List PaymentRec :=
  match ps with
  | [] => []
  | p :: rest => if p.order_id == k then f p :: rest else p :: updatePayment rest k f

/-- `collections['users'].find_one({'email': e})`. -/
def findUserByEmail (us : List UserRec) (e : String) : Option UserRec :=
  us.find? (fun u => u.email == e)

/-- `collections['users'].find_one({'user_id': i})`. -/
def findUserById (us : List UserRec) (i : String) : Option UserRec :=
  us.find? (fun u => u.user_id == i)

/-- `collections['users'].update_one({'user_id': i}, ...)`. -/
def updateUser (us : List UserRec) (i : String) (f : UserRec → UserRec) : List UserRec :=
  match us with
  | [] => []
  | u :: rest => if u.user_id == i then f u :: rest else u :: updateUser rest i f

/-! ## External libraries as an abstract environment -/

/-- The cryptographic and configuration environment of the process: the
Razorpay key secret and the JWT secret (from the env), the hex HMAC-SHA256
digest function of hmac/hashlib, bcrypt hashing (keyed by the generated salt)
and check, and jwt encoding/decoding.  These are external library functions,
carried abstractly so every theorem holds for any implementation of them. -/
structure Env where
  razorpayKeyId : String
  razorpaySecret : String
  hmacSha256Hex : String → String → String
  bcryptHash : String → String → String
  bcryptCheck : String → String → Bool
  jwtEncode : String → String → Nat → String
  jwtVerify : String → Option (String × String)

/-! ## Responses -/

/-- The JSON body of a handler response.  `err m` is the uniform error
envelope with status error and message `m`; the other constructors carry the
success payloads of the individual endpoints. -/
inductive Body where
  | err (msg : String)
  | signupOk (user_id token message : String)
  | loginOk (user_id token name email message : String)
  | logoutOk (message : String)
  | meOk (user_id name email : String)
  | tokenOk (valid : Bool) (user_id email : Option String)
  | predictOk (predicted_price : Int) (car_id : String)
  | orderOk (order_id : String) (amount : Int) (currency key_id : String)
  | verifyOk
  | bookOk (booking_id : String)
  | healthOk (model_loaded database_connected razorpay_configured : Bool)
deriving DecidableEq

/-- An HTTP response: status code plus JSON body. -/
structure Resp where
  code : Nat
  body : Body
deriving DecidableEq

/-! ## Request bodies -/

/-- JSON body of POST /api/auth/signup; every field may be absent. -/
structure SignupReq where
  name : Option String
  email : Option String
  password : Option String
deriving DecidableEq

/-- JSON body of POST /api/auth/login. -/
structure LoginReq where
  email : Option String
  password : Option String
deriving DecidableEq

/-- JSON body of POST /api/predict. -/
structure PredictReq where
  name : Option String
  year : Option Int
  km_driven : Option Rat
  fuel : Option String
  seller_type : Option String
  transmission : Option String
  owner : Option String
  mileage : Option Rat
  engine : Option Rat
  max_power : Option Rat
  seats : Option Rat
deriving DecidableEq

/-- JSON body of POST /api/create-order. -/
structure OrderReq where
  amount : Option Int
  car_id : Option String
  customer_name : Option String
  customer_email : Option String
  customer_phone : Option String
deriving DecidableEq

/-- JSON body of POST /api/verify-payment. -/
structure VerifyReq where
  order_id : Option String
  payment_id : Option String
  signature : Option String
deriving DecidableEq

/-- JSON body of POST /api/book-inspection. -/
structure BookingReq where
  car_id : Option String
  order_id : Option String
  customer_name : Option String
  customer_email : Option String
  customer_phone : Option String
  address : Option String
  inspection_date : Option String
  inspection_time : Option String
deriving DecidableEq

/-! ## Python string primitives

The handlers use `str.strip()`, `str.lower()`, `in` and `str.split`, modelled
here structurally over the character list of the string so that they compute
on concrete inputs. -/

/-- Python `str.lower()` (ASCII behaviour). -/
def pyLower (s : String) : String :=
  String.mk (s.data.map Char.toLower)

/-- Python `str.strip()`: remove leading and trailing whitespace. -/
def pyStrip (s : String) : String :=
  String.mk (((s.data.dropWhile Char.isWhitespace).reverse.dropWhile
    Char.isWhitespace).reverse)

/-- Python `c in s` for a single character. -/
def pyContainsChar (s : String) (c : Char) : Bool :=
  s.data.contains c

/-- Python `s.split(c)` on the character list: splits at every occurrence of
`c`, keeping empty segments, never returning an empty list. -/
def splitCharList (c : Char) : List Char → List (List Char)
  | [] => [[]]
  | x :: rest =>
    let r := splitCharList c rest
    if x == c then [] :: r
    else
      match r with
      | [] => [[x]]
      | h :: t => (x :: h) :: t

/-! ## Handlers -/

/-- The signup email check: Python rejects when `'@' not in email or
'.' not in email.split('@')[1]`, so the format is accepted exactly when the
email contains an at sign and the segment after the first at sign contains a
dot. -/
def email_format_ok (email : String) : Bool :=
  pyContainsChar email '@' &&
    (((splitCharList '@' email.data).getD 1 []).contains '.')

/-- POST /api/auth/signup (app.py `signup`).  `salt` is the salt produced by
`bcrypt.gensalt()` for this call; `now` the current timestamp. -/
def signup (env : Env) (salt : String) (now : Nat) (s : AppState) (req : SignupReq) :
    AppState × Resp :=
  if falsyStr req.name || falsyStr req.email || falsyStr req.password then
    (s, ⟨400, Body.err "Missing required fields"⟩)
  else
    let name := pyStrip (req.name.getD "")
    let email := pyLower (pyStrip (req.email.getD ""))
    let password := req.password.getD ""
    if !email_format_ok email then
      (s, ⟨400, Body.err "Invalid email format"⟩)
    else if password.length < 6 then
      (s, ⟨400, Body.err "Password must be at least 6 characters"⟩)
    else if s.mongodb_connected then
      match findUserByEmail s.users email with
      | some _ => (s, ⟨400, Body.err "Email already registered"⟩)
      | none =>
        let user_id := "USER_" ++ toString now
        let hashed_password := env.bcryptHash salt password
        let doc : UserRec :=
          { user_id := user_id, name := name, email := email,
            password := hashed_password, created_at := now, last_login := none }
        let token := env.jwtEncode user_id email now
        ({ s with users := s.users ++ [doc] },
         ⟨201, Body.signupOk user_id token "Account created successfully"⟩)
    else
      (s, ⟨500, Body.err "Database not connected"⟩)

/-- POST /api/auth/login (app.py `login`). -/
def login (env : Env) (now : Nat) (s : AppState) (req : LoginReq) : AppState × Resp :=
  if falsyStr req.email || falsyStr req.password then
    (s, ⟨400, Body.err "Missing email or password"⟩)
  else
    let email := pyLower (pyStrip (req.email.getD ""))
    let password := req.password.getD ""
    if s.mongodb_connected then
      match findUserByEmail s.users email with
      | none => (s, ⟨401, Body.err "Invalid email or password"⟩)
      | some user =>
        if !env.bcryptCheck password user.password then
          (s, ⟨401, Body.err "Invalid email or password"⟩)
        else
          let token := env.jwtEncode user.user_id email now
          let touch := fun (u : UserRec) => { u with last_login := some now }
          ({ s with users := updateUser s.users user.user_id touch },
           ⟨200, Body.loginOk user.user_id token user.name user.email "Login successful"⟩)
    else
      (s, ⟨500, Body.err "Database not connected"⟩)

/-- POST /api/auth/logout (after the token guard): a plain acknowledgment. -/
def logout (s : AppState) : AppState × Resp :=
  (s, ⟨200, Body.logoutOk "Logged out successfully"⟩)

/-- GET /api/auth/me (app.py `get_user`). -/
def get_user (s : AppState) (userId : String) : AppState × Resp :=
  if s.mongodb_connected then
    match findUserById s.users userId with
    | some u => (s, ⟨200, Body.meOk u.user_id u.name u.email⟩)
    | none => (s, ⟨404, Body.err "User not found"⟩)
  else
    (s, ⟨500, Body.err "Database not connected"⟩)

/-- POST /api/auth/verify-token (app.py `verify_token`). -/
def verify_token (env : Env) (s : AppState) (token : Option String) : AppState × Resp :=
  if falsyStr token then (s, ⟨400, Body.err "Token is missing"⟩)
  else
    match env.jwtVerify (token.getD "") with
    | some (uid, email) => (s, ⟨200, Body.tokenOk true (some uid) (some email)⟩)
    | none => (s, ⟨200, Body.tokenOk false none none⟩)

/-- The `for field in required_fields: if field not in data` loop of the
predict handler, returning the first missing required field. -/
def firstMissingField (req : PredictReq) : Option String :=
  if req.name.isNone then some "name"
  else if req.year.isNone then some "year"
  else if req.km_driven.isNone then some "km_driven"
  else if req.fuel.isNone then some "fuel"
  else if req.seller_type.isNone then some "seller_type"
  else if req.transmission.isNone then some "transmission"
  else if req.owner.isNone then some "owner"
  else none

/-- Python `int()` applied to the model output: truncation toward zero. -/
def int_of_rat (q : Rat) : Int :=
  Int.tdiv q.num (q.den : Int)

/-- Tail of the predict handler shared by the model branch and the fallback
branch: mint the car id, store the car document when the database is
connected, and answer with the price. -/
def finishPredict (userId : String) (now : Nat) (s : AppState) (d : CarInput)
    (price : Int) : AppState × Resp :=
  let car_id := "CAR_" ++ toString now
  let doc : CarRec :=
    { car_id := car_id, user_id := userId, car_details := d,
      predicted_price := price, created_at := now }
  let s2 :=
    if s.mongodb_connected then { s with cars := s.cars ++ [doc] } else s
  (s2, ⟨200, Body.predictOk price car_id⟩)

/-- POST /api/predict (app.py `predict`, after the token guard): check the
required fields, prepare features and clamp the model output to
[50000, 5000000], or fall back to the fixed price 450000 when the model
failed to load; a ZeroDivisionError from `prepare_features` is caught by the
handler boundary and surfaced as a 400 error envelope. -/
def predict (userId : String) (now : Nat) (s : AppState) (req : PredictReq) :
    AppState × Resp :=
  match firstMissingField req with
  | some f => (s, ⟨400, Body.err ("Missing field: " ++ f)⟩)
  | none =>
    match req.name, req.year, req.km_driven, req.fuel,
          req.seller_type, req.transmission, req.owner with
    | some nm, some yr, some km, some fu, some st, some tr, some ow =>
      let d : CarInput :=
        { name := nm, year := yr, km_driven := km, fuel := fu, seller_type := st,
          transmission := tr, owner := ow, mileage := req.mileage,
          engine := req.engine, max_power := req.max_power, seats := req.seats }
      match s.model with
      | some m =>
        match prepare_features m.label_encoders d with
        | Except.error e => (s, ⟨400, Body.err e⟩)
        | Except.ok features =>
          let features_scaled := m.scalerTransform features
          let raw := int_of_rat (m.predictFn features_scaled)
          let predicted_price := max 50000 (min raw 5000000)
          finishPredict userId now s d predicted_price
      | none => finishPredict userId now s d 450000
    | _, _, _, _, _, _, _ => (s, ⟨400, Body.err "Missing field"⟩)

/-- POST /api/create-order (app.py `create_order`): `gatewayOrderId` is the
order id minted by the external Razorpay gateway for this call. -/
def create_order (env : Env) (gatewayOrderId userId : String) (now : Nat)
    (s : AppState) (req : OrderReq) : AppState × Resp :=
  if !s.razorpay_configured then
    (s, ⟨500, Body.err "Payment service not configured"⟩)
  else
    let amount := req.amount.getD 50000
    let doc : PaymentRec :=
      { order_id := gatewayOrderId, amount := amount, user_id := userId,
        car_id := req.car_id, customer_name := req.customer_name,
        customer_email := req.customer_email, customer_phone := req.customer_phone,
        status := "created", payment_id := none, signature := none,
        verified_at := none, created_at := now }
    let s2 :=
      if s.mongodb_connected then { s with payments := s.payments ++ [doc] } else s
    (s2, ⟨200, Body.orderOk gatewayOrderId amount "INR" env.razorpayKeyId⟩)

/-- POST /api/verify-payment (app.py `verify_payment`): recompute the hex
HMAC-SHA256 of `order_id|payment_id` under the Razorpay key secret and compare
with the client signature; on equality mark the stored order verified, on
inequality answer 400 and leave the state untouched.  A missing body field
raises a KeyError that the handler boundary turns into a 400 envelope. -/
def verify_payment (env : Env) (now : Nat) (s : AppState) (req : VerifyReq) :
    AppState × Resp :=
  match req.order_id, req.payment_id, req.signature with
  | some oid, some pid, some sig =>
    let generated_signature := env.hmacSha256Hex env.razorpaySecret (oid ++ "|" ++ pid)
    if generated_signature == sig then
      let markVerified := fun (p : PaymentRec) =>
        { p with payment_id := some pid, signature := some sig,
                 status := "verified", verified_at := some now }
      let s2 :=
        if s.mongodb_connected then
          { s with payments := updatePayment s.payments oid markVerified }
        else s
      (s2, ⟨200, Body.verifyOk⟩)
    else
      (s, ⟨400, Body.err "Invalid signature"⟩)
  | _, _, _ => (s, ⟨400, Body.err "KeyError"⟩)

/-- POST /api/book-inspection (app.py `book_inspection`): store the booking
with status confirmed; the confirmation email is best-effort and does not
change the state or the response. -/
def book_inspection (userId : String) (now : Nat) (s : AppState) (req : BookingReq) :
    AppState × Resp :=
  let booking_id := "BOOK_" ++ toString now
  let doc : BookingRec :=
    { booking_id := booking_id, user_id := userId, car_id := req.car_id,
      order_id := req.order_id, customer_name := req.customer_name,
      customer_email := req.customer_email, customer_phone := req.customer_phone,
      address := req.address, inspection_date := req.inspection_date,
      inspection_time := req.inspection_time, status := "confirmed",
      created_at := now }
  let s2 :=
    if s.mongodb_connected then { s with bookings := s.bookings ++ [doc] } else s
  (s2, ⟨200, Body.bookOk booking_id⟩)

/-- GET /api/health (app.py `health_check`). -/
def health_check (s : AppState) : AppState × Resp :=
  (s, ⟨200, Body.healthOk s.model.isSome s.mongodb_connected s.razorpay_configured⟩)

/-! ## The system as a step function over operations -/

/-- One inbound request, with the per-call external inputs (timestamps, the
bcrypt salt, the gateway-minted order id, the authenticated user) carried as
payload. -/
inductive Op where
  | opSignup (salt : String) (now : Nat) (req : SignupReq)
  | opLogin (now : Nat) (req : LoginReq)
  | opLogout
  | opGetUser (userId : String)
  | opVerifyToken (token : Option String)
  | opPredict (userId : String) (now : Nat) (req : PredictReq)
  | opCreateOrder (gatewayOrderId userId : String) (now : Nat) (req : OrderReq)
  | opVerifyPayment (now : Nat) (req : VerifyReq)
  | opBookInspection (userId : String) (now : Nat) (req : BookingReq)
  | opHealth

/-- Dispatch one request to its handler. -/
def step (env : Env) (s : AppState) : Op → AppState × Resp
  | Op.opSignup salt now req => signup env salt now s req
  | Op.opLogin now req => login env now s req
  | Op.opLogout => logout s
  | Op.opGetUser userId => get_user s userId
  | Op.opVerifyToken token => verify_token env s token
  | Op.opPredict userId now req => predict userId now s req
  | Op.opCreateOrder gid userId now req => create_order env gid userId now s req
  | Op.opVerifyPayment now req => verify_payment env now s req
  | Op.opBookInspection userId now req => book_inspection userId now s req
  | Op.opHealth => health_check s

/-! ## The spec-side feature vector (claim C2, written from the spec text) -/

/-- The feature vector exactly as the specification states it: defaults are
substituted for absent or falsy optional fields (the fuel-dependent mileage
table, engine 1200, max_power as seven percent of engine, five seats), the
three derived quantities use the reference year 2024, and the output is the
fixed feature order of the trained model. -/
def claimedFeatureVector (encs : Encoders) (d : CarInput) : List Rat :=
  let mileage : Rat :=
    if falsyNum d.mileage then mileage_map_get d.fuel else d.mileage.getD 0
  let engine : Rat := if falsyNum d.engine then 1200 else d.engine.getD 0
  let max_power : Rat :=
    if falsyNum d.max_power then engine * (7 / 100) else d.max_power.getD 0
  let seats : Rat := if falsyNum d.seats then 5 else d.seats.getD 0
  let car_age : Int := 2024 - d.year
  let km_per_year : Rat := d.km_driven / ((car_age : Rat) + 1)
  let power_efficiency : Rat := max_power / engine
  [(d.year : Rat), d.km_driven, mileage, engine, max_power, seats,
   (car_age : Rat), km_per_year, power_efficiency,
   (safe_encode_label encs.name d.name : Rat),
   (safe_encode_label encs.fuel d.fuel : Rat),
   (safe_encode_label encs.seller_type d.seller_type : Rat),
   (safe_encode_label encs.transmission d.transmission : Rat),
   (safe_encode_label encs.owner d.owner : Rat)]

/-! ## Invariants -/

/-- Every stored payment has status created or verified. -/
def statusInv (s : AppState) : Prop :=
  ∀ p ∈ s.payments, p.status = "created" ∨ p.status = "verified"

/-! ## Concrete fixtures used to instantiate the theorems on closed inputs -/

/-- A concrete environment with simple executable stand-ins for the external
cryptographic functions. -/
def envX : Env :=
  { razorpayKeyId := "rzp_test_key"
    razorpaySecret := "rzpsecret"
    hmacSha256Hex := fun key msg => "hmac." ++ key ++ "." ++ msg
    bcryptHash := fun salt pw => "bc." ++ salt ++ "." ++ pw
    bcryptCheck := fun pw h => h == "bc.s1." ++ pw
    jwtEncode := fun uid email now => uid ++ ":" ++ email ++ ":" ++ toString now
    jwtVerify := fun _t => none }

/-- A concrete registered user whose stored hash matches password hunter22
under `envX.bcryptCheck`. -/
def userX : UserRec :=
  { user_id := "USER_1", name := "Alice", email := "alice@example.com",
    password := "bc.s1.hunter22", created_at := 0, last_login := none }

/-- A concrete payment record in status created. -/
def payX : PaymentRec :=
  { order_id := "order_1", amount := 50000, user_id := "USER_1", car_id := none,
    customer_name := none, customer_email := none, customer_phone := none,
    status := "created", payment_id := none, signature := none,
    verified_at := none, created_at := 0 }

/-- The valid gateway signature for the concrete order and payment ids. -/
def sigX : String := envX.hmacSha256Hex envX.razorpaySecret "order_1|pay_1"

/-- The concrete payment record after a successful verification at time 9. -/
def payVerifiedX : PaymentRec :=
  { payX with payment_id := some "pay_1", signature := some sigX,
              status := "verified", verified_at := some 9 }

/-- A concrete connected application state without a loaded model. -/
def stateX : AppState :=
  { users := [userX], cars := [], payments := [payX], bookings := [],
    mongodb_connected := true, model := none, razorpay_configured := true }

/-- Concrete label encoders. -/
def encsX : Encoders :=
  { name := ⟨["Honda City", "Maruti Swift"]⟩
    fuel := ⟨["CNG", "Diesel", "Petrol"]⟩
    seller_type := ⟨["Dealer", "Individual"]⟩
    transmission := ⟨["Automatic", "Manual"]⟩
    owner := ⟨["First Owner", "Second Owner"]⟩ }

/-- A concrete artifact bundle with an identity scaler and a constant model. -/
def artifactsX : ModelArtifacts :=
  { predictFn := fun _features => 9000000
    scalerTransform := fun features => features
    label_encoders := encsX
    feature_cols := ["year", "km_driven", "mileage", "engine", "max_power",
      "seats", "car_age", "km_per_year", "power_efficiency", "name_encoded",
      "fuel_encoded", "seller_type_encoded", "transmission_encoded",
      "owner_encoded"] }

/-- A connected state with the model loaded. -/
def stateModelX : AppState :=
  { users := [userX], cars := [], payments := [payX], bookings := [],
    mongodb_connected := true, model := some artifactsX, razorpay_configured := true }

/-- A state whose database connection failed while the model loaded fine. -/
def stateNoDbX : AppState :=
  { users := [], cars := [], payments := [], bookings := [],
    mongodb_connected := false, model := some artifactsX, razorpay_configured := true }

/-- A complete concrete prediction request. -/
def predictReqX : PredictReq :=
  { name := some "Maruti Swift", year := some 2015, km_driven := some 70000,
    fuel := some "Petrol", seller_type := some "Individual",
    transmission := some "Manual", owner := some "First Owner",
    mileage := none, engine := some 0, max_power := none, seats := some 5 }

/-- The same request with the year 2025, the division-by-zero input. -/
def predictReq2025X : PredictReq :=
  { predictReqX with year := some 2025 }

/-! ## Helper lemmas about the record store -/

theorem findPayment_append_left (ps : List PaymentRec) (r : PaymentRec) (k : String)
    (p : PaymentRec) (h : findPayment ps k = some p) :
    findPayment (ps ++ [r]) k = some p := by
  simp only [findPayment] at h ⊢
  rw [List.find?_append, h]
  rfl

theorem findPayment_updatePayment_self (ps : List PaymentRec) (k : String)
    (f : PaymentRec → PaymentRec) (hf : ∀ q, (f q).order_id = q.order_id) :
    findPayment (updatePayment ps k f) k = Option.map f (findPayment ps k) := by
  induction ps with
  | nil => rfl
  | cons q rest ih =>
    simp only [findPayment, updatePayment] at *
    by_cases h : q.order_id == k
    · rw [if_pos h, List.find?_cons_of_pos, List.find?_cons_of_pos]
      · rfl
      · exact h
      · simpa [hf q] using h
    · rw [if_neg h, List.find?_cons_of_neg, List.find?_cons_of_neg]
      · exact ih
      · exact h
      · exact h

theorem findPayment_updatePayment_ne (ps : List PaymentRec) (k k2 : String)
    (f : PaymentRec → PaymentRec) (hf : ∀ q, (f q).order_id = q.order_id)
    (hne : k2 ≠ k) :
    findPayment (updatePayment ps k f) k2 = findPayment ps k2 := by
  induction ps with
  | nil => rfl
  | cons q rest ih =>
    simp only [findPayment, updatePayment] at *
    by_cases h : q.order_id == k
    · have hqk : q.order_id = k := by simpa using h
      have h2 : ((f q).order_id == k2) = false := by
        simp [hf q, hqk]
        exact fun hc => hne hc.symm
      have h3 : (q.order_id == k2) = false := by
        simp [hqk]
        exact fun hc => hne hc.symm
      rw [if_pos h, List.find?_cons_of_neg, List.find?_cons_of_neg]
      · simp [h3]
      · simp [h2]
    · rw [if_neg h]
      by_cases h4 : q.order_id == k2
      · rw [List.find?_cons_of_pos, List.find?_cons_of_pos] <;> try exact h4
      · rw [List.find?_cons_of_neg, List.find?_cons_of_neg]
        · exact ih
        · simpa using h4
        · simpa using h4

theorem mem_of_findPayment (ps : List PaymentRec) (k : String) (p : PaymentRec)
    (h : findPayment ps k = some p) : p ∈ ps :=
  List.mem_of_find?_eq_some h

/-! ## Claim theorems -/

/-- Claim C3: safe_encode_label is a total function that never fails; on a
label in the known set of the encoder it returns the learned integer code
(the value of `encoder.transform`), and on any label outside the known set it
returns the default code 0. -/
theorem safe_encode_label_spec (enc : LabelEncoder) (v : String) :
    (v ∈ enc.classes → encoderTransform enc v = Except.ok (safe_encode_label enc v)) ∧
    (v ∉ enc.classes → safe_encode_label enc v = 0) := by
  by_cases h : v ∈ enc.classes <;> simp [encoderTransform, safe_encode_label, h]

/-- Witness for C3 on closed inputs: Diesel is a known fuel label of the
concrete encoder and maps through its learned code; Hybrid is unknown and
maps to 0. -/
theorem safe_encode_label_spec_witness :
    encoderTransform encsX.fuel "Diesel" = Except.ok (safe_encode_label encsX.fuel "Diesel") ∧
    safe_encode_label encsX.fuel "Hybrid" = 0 :=
  ⟨(safe_encode_label_spec encsX.fuel "Diesel").1 (by decide),
   (safe_encode_label_spec encsX.fuel "Hybrid").2 (by decide)⟩

/-- Claim C2: for an input with the required fields (and a year other than
2025, where the source raises instead - claim C10), prepare_features returns
exactly the vector described by the specification: defaults for absent or
falsy optional fields, the derived quantities over the reference year 2024,
and the fixed feature order. -/
theorem prepare_features_matches_claim (encs : Encoders) (d : CarInput)
    (h : d.year ≠ 2025) :
    prepare_features encs d = Except.ok (claimedFeatureVector encs d) := by
  have hdz : ((2024 - d.year + 1 : Int) == 0) = false := by
    simp only [beq_eq_false_iff_ne, ne_eq]
    omega
  simp [prepare_features, claimedFeatureVector, hdz]

/-- Witness for C2 on a closed input. -/
theorem prepare_features_matches_claim_witness :
    prepare_features encsX
        { name := "Maruti Swift", year := 2015, km_driven := 70000,
          fuel := "Petrol", seller_type := "Individual", transmission := "Manual",
          owner := "First Owner", mileage := none, engine := some 0,
          max_power := none, seats := some 5 } =
      Except.ok (claimedFeatureVector encsX
        { name := "Maruti Swift", year := 2015, km_driven := 70000,
          fuel := "Petrol", seller_type := "Individual", transmission := "Manual",
          owner := "First Owner", mileage := none, engine := some 0,
          max_power := none, seats := some 5 }) :=
  prepare_features_matches_claim encsX _ (by decide)

/-- Claim C10: the division `km_driven / (car_age + 1)` is unguarded.  For
every input year strictly below 2025 the divisor is nonzero, while a request
with year 2025, all required fields present and the model loaded makes
prepare_features raise the division-by-zero error and the predict handler
answer an error envelope instead of a price. -/
theorem km_per_year_division_guard :
    (∀ d : CarInput, d.year < 2025 → (2024 - d.year + 1 : Int) ≠ 0) ∧
    (∀ (userId : String) (now : Nat) (s : AppState) (req : PredictReq)
        (m : ModelArtifacts),
      s.model = some m → firstMissingField req = none → req.year = some 2025 →
      (predict userId now s req).2 = ⟨400, Body.err "division by zero"⟩) := by
  constructor
  · intro d hy
    omega
  · intro userId now s req m hm hmiss hyr
    rcases hn : req.name with _ | nm
    · simp [firstMissingField, hn] at hmiss
    rcases hk : req.km_driven with _ | km
    · simp [firstMissingField, hn, hk, hyr] at hmiss
    rcases hf : req.fuel with _ | fu
    · simp [firstMissingField, hn, hk, hf, hyr] at hmiss
    rcases hst : req.seller_type with _ | st
    · simp [firstMissingField, hn, hk, hf, hst, hyr] at hmiss
    rcases htr : req.transmission with _ | tr
    · simp [firstMissingField, hn, hk, hf, hst, htr, hyr] at hmiss
    rcases how : req.owner with _ | ow
    · simp [firstMissingField, hn, hk, hf, hst, htr, how, hyr] at hmiss
    simp [predict, hmiss, hn, hyr, hk, hf, hst, htr, how, hm, prepare_features]

/-- Witness for C10 on closed inputs: a 2015 car has a nonzero divisor, and a
2025 request against the loaded concrete model is answered with the
division-by-zero error envelope. -/
theorem km_per_year_division_guard_witness :
    ((2024 - (2015 : Int) + 1 : Int) ≠ 0) ∧
    (predict "USER_1" 5 stateModelX predictReq2025X).2 =
      ⟨400, Body.err "division by zero"⟩ :=
  ⟨km_per_year_division_guard.1
      { name := "Maruti Swift", year := 2015, km_driven := 70000,
        fuel := "Petrol", seller_type := "Individual", transmission := "Manual",
        owner := "First Owner", mileage := none, engine := none,
        max_power := none, seats := none } (by decide),
   km_per_year_division_guard.2 "USER_1" 5 stateModelX predictReq2025X
      artifactsX rfl rfl rfl⟩

/-- Claim C9: every successful predict response carries a price between 50000
and 5000000: the model output is clamped to this interval and the fallback
450000 lies inside it. -/
theorem predicted_price_in_range (userId : String) (now : Nat) (s : AppState)
    (req : PredictReq) (price : Int) (cid : String)
    (h : (predict userId now s req).2 = ⟨200, Body.predictOk price cid⟩) :
    50000 ≤ price ∧ price ≤ 5000000 := by
  rcases hs : firstMissingField req with _ | f
  case some => simp [predict, hs] at h
  rcases hn : req.name with _ | nm
  · simp [firstMissingField, hn] at hs
  rcases hyr : req.year with _ | yr
  · simp [firstMissingField, hn, hyr] at hs
  rcases hk : req.km_driven with _ | km
  · simp [firstMissingField, hn, hyr, hk] at hs
  rcases hf : req.fuel with _ | fu
  · simp [firstMissingField, hn, hyr, hk, hf] at hs
  rcases hst : req.seller_type with _ | st
  · simp [firstMissingField, hn, hyr, hk, hf, hst] at hs
  rcases htr : req.transmission with _ | tr
  · simp [firstMissingField, hn, hyr, hk, hf, hst, htr] at hs
  rcases how : req.owner with _ | ow
  · simp [firstMissingField, hn, hyr, hk, hf, hst, htr, how] at hs
  rcases hm : s.model with _ | m
  · simp only [predict, hs, hn, hyr, hk, hf, hst, htr, how, hm,
      finishPredict] at h
    simp only [Resp.mk.injEq, Body.predictOk.injEq] at h
    obtain ⟨-, hp, -⟩ := h
    subst hp
    norm_num
  · simp only [predict, hs, hn, hyr, hk, hf, hst, htr, how, hm,
      finishPredict] at h
    split at h
    · simp at h
    · simp only [Resp.mk.injEq, Body.predictOk.injEq] at h
      obtain ⟨-, hp, -⟩ := h
      subst hp
      exact ⟨le_max_left _ _, max_le (by norm_num) (min_le_right _ _)⟩

/-- Witness for C9 on closed inputs: the concrete model answers 9000000 which
the handler clamps into the interval. -/
theorem predicted_price_in_range_witness :
    50000 ≤ (5000000 : Int) ∧ (5000000 : Int) ≤ 5000000 :=
  predicted_price_in_range "USER_1" 5 stateModelX predictReqX 5000000
    ("CAR_" ++ toString 5) (by decide)

/-- Claim C5: the two failing login paths are observationally identical.  A
request whose email matches no stored user and a request whose email matches
a stored user but whose password fails the bcrypt check produce the very same
response: status 401 with the generic invalid-credentials message. -/
theorem login_failures_indistinguishable (env : Env) (now1 now2 : Nat)
    (s : AppState) (e1 p1 e2 p2 : String) (u : UserRec)
    (hconn : s.mongodb_connected = true)
    (he1 : e1.isEmpty = false) (hp1 : p1.isEmpty = false)
    (he2 : e2.isEmpty = false) (hp2 : p2.isEmpty = false)
    (h1 : findUserByEmail s.users (pyLower (pyStrip e1)) = none)
    (h2 : findUserByEmail s.users (pyLower (pyStrip e2)) = some u)
    (h3 : env.bcryptCheck p2 u.password = false) :
    (login env now1 s ⟨some e1, some p1⟩).2 = (login env now2 s ⟨some e2, some p2⟩).2 ∧
    (login env now1 s ⟨some e1, some p1⟩).2 = ⟨401, Body.err "Invalid email or password"⟩ := by
  constructor <;>
    simp [login, falsyStr, he1, hp1, he2, hp2, hconn, h1, h2, h3]

/-- Witness for C5 on closed inputs: an unknown email and a wrong password
against the registered concrete user produce the same 401 response. -/
theorem login_failures_indistinguishable_witness :
    (login envX 3 stateX ⟨some "nobody@example.com", some "whatever1"⟩).2 =
      (login envX 4 stateX ⟨some "alice@example.com", some "wrongpass"⟩).2 ∧
    (login envX 3 stateX ⟨some "nobody@example.com", some "whatever1"⟩).2 =
      ⟨401, Body.err "Invalid email or password"⟩ :=
  login_failures_indistinguishable envX 3 4 stateX "nobody@example.com" "whatever1"
    "alice@example.com" "wrongpass" userX rfl rfl rfl rfl rfl
    (by decide) (by decide) (by decide)

/-- Claim C7: when loading the artifact bundle fails, the loader leaves the
model unset rather than crashing, every well-formed prediction request is
answered 200 with the fixed fallback price 450000, and the health endpoint
reports model_loaded false. -/
theorem model_load_failure_degraded (msg : String) (s : AppState)
    (hm : s.model = load_model (Except.error msg))
    (userId : String) (now : Nat) (req : PredictReq)
    (hreq : firstMissingField req = none) :
    (predict userId now s req).2.code = 200 ∧
    (predict userId now s req).2.body = Body.predictOk 450000 ("CAR_" ++ toString now) ∧
    (health_check s).2.body = Body.healthOk false s.mongodb_connected s.razorpay_configured := by
  have hm2 : s.model = none := hm
  rcases hn : req.name with _ | nm
  · simp [firstMissingField, hn] at hreq
  rcases hyr : req.year with _ | yr
  · simp [firstMissingField, hn, hyr] at hreq
  rcases hk : req.km_driven with _ | km
  · simp [firstMissingField, hn, hyr, hk] at hreq
  rcases hf : req.fuel with _ | fu
  · simp [firstMissingField, hn, hyr, hk, hf] at hreq
  rcases hst : req.seller_type with _ | st
  · simp [firstMissingField, hn, hyr, hk, hf, hst] at hreq
  rcases htr : req.transmission with _ | tr
  · simp [firstMissingField, hn, hyr, hk, hf, hst, htr] at hreq
  rcases how : req.owner with _ | ow
  · simp [firstMissingField, hn, hyr, hk, hf, hst, htr, how] at hreq
  refine ⟨?_, ?_, ?_⟩ <;>
    simp [predict, health_check, hreq, hn, hyr, hk, hf, hst, htr, how, hm2,
      finishPredict]

/-- Witness for C7 on closed inputs. -/
theorem model_load_failure_degraded_witness :
    (predict "USER_1" 5 stateX predictReqX).2.code = 200 ∧
    (predict "USER_1" 5 stateX predictReqX).2.body =
      Body.predictOk 450000 ("CAR_" ++ toString 5) ∧
    (health_check stateX).2.body =
      Body.healthOk false stateX.mongodb_connected stateX.razorpay_configured :=
  model_load_failure_degraded "file not found" stateX rfl "USER_1" 5 predictReqX rfl

/-- Claim C1: with order_id, payment_id and signature present, payment
verification succeeds exactly when the client signature equals the hex
HMAC-SHA256 of order_id|payment_id under the server secret; on equality the
stored order is marked verified with payment id, signature and timestamp
attached, and on inequality the handler answers 400 with the
signature-mismatch error and the state is left unchanged. -/
theorem verify_payment_spec (env : Env) (now : Nat) (s : AppState)
    (oid pid sig : String) (p : PaymentRec)
    (hconn : s.mongodb_connected = true)
    (hfind : findPayment s.payments oid = some p) :
    ((verify_payment env now s ⟨some oid, some pid, some sig⟩).2.code = 200 ↔
      sig = env.hmacSha256Hex env.razorpaySecret (oid ++ "|" ++ pid)) ∧
    (sig = env.hmacSha256Hex env.razorpaySecret (oid ++ "|" ++ pid) →
      (verify_payment env now s ⟨some oid, some pid, some sig⟩).2 =
        ⟨200, Body.verifyOk⟩ ∧
      findPayment (verify_payment env now s ⟨some oid, some pid, some sig⟩).1.payments oid =
        some { p with payment_id := some pid, signature := some sig,
                      status := "verified", verified_at := some now }) ∧
    (sig ≠ env.hmacSha256Hex env.razorpaySecret (oid ++ "|" ++ pid) →
      (verify_payment env now s ⟨some oid, some pid, some sig⟩).2 =
        ⟨400, Body.err "Invalid signature"⟩ ∧
      (verify_payment env now s ⟨some oid, some pid, some sig⟩).1 = s) := by
  by_cases hsig : env.hmacSha256Hex env.razorpaySecret (oid ++ "|" ++ pid) = sig
  · have hbeq : (env.hmacSha256Hex env.razorpaySecret (oid ++ "|" ++ pid) == sig) = true := by
      simpa using hsig
    refine ⟨?_, ?_, ?_⟩
    · simp [verify_payment, hbeq, hsig]
    · intro _hs
      constructor
      · simp [verify_payment, hbeq]
      · simp only [verify_payment, hbeq, if_true, hconn]
        have hu := findPayment_updatePayment_self s.payments oid
          (fun q => { q with payment_id := some pid, signature := some sig,
                             status := "verified", verified_at := some now })
          (fun q => rfl)
        rw [hu, hfind]
        rfl
    · intro hne
      exact absurd hsig.symm hne
  · have hbeq : (env.hmacSha256Hex env.razorpaySecret (oid ++ "|" ++ pid) == sig) = false := by
      simpa using hsig
    refine ⟨?_, ?_, ?_⟩
    · simp [verify_payment, hbeq]
      exact fun hc => hsig hc.symm
    · intro hs2
      exact absurd hs2.symm hsig
    · intro _hne
      simp [verify_payment, hbeq]

/-- Witness for C1 on closed inputs: the concrete order in status created is
marked verified by a matching signature, and rejected unchanged by a mutated
signature. -/
theorem verify_payment_spec_witness :
    ((verify_payment envX 9 stateX
        ⟨some "order_1", some "pay_1",
         some (envX.hmacSha256Hex envX.razorpaySecret "order_1|pay_1")⟩).2.code = 200 ↔
      envX.hmacSha256Hex envX.razorpaySecret "order_1|pay_1" =
        envX.hmacSha256Hex envX.razorpaySecret ("order_1" ++ "|" ++ "pay_1")) ∧
    (envX.hmacSha256Hex envX.razorpaySecret "order_1|pay_1" =
        envX.hmacSha256Hex envX.razorpaySecret ("order_1" ++ "|" ++ "pay_1") →
      (verify_payment envX 9 stateX
        ⟨some "order_1", some "pay_1",
         some (envX.hmacSha256Hex envX.razorpaySecret "order_1|pay_1")⟩).2 =
        ⟨200, Body.verifyOk⟩ ∧
      findPayment (verify_payment envX 9 stateX
        ⟨some "order_1", some "pay_1",
         some (envX.hmacSha256Hex envX.razorpaySecret "order_1|pay_1")⟩).1.payments "order_1" =
        some { payX with payment_id := some "pay_1",
                         signature := some (envX.hmacSha256Hex envX.razorpaySecret "order_1|pay_1"),
                         status := "verified", verified_at := some 9 }) ∧
    (envX.hmacSha256Hex envX.razorpaySecret "order_1|pay_1" ≠
        envX.hmacSha256Hex envX.razorpaySecret ("order_1" ++ "|" ++ "pay_1") →
      (verify_payment envX 9 stateX
        ⟨some "order_1", some "pay_1",
         some (envX.hmacSha256Hex envX.razorpaySecret "order_1|pay_1")⟩).2 =
        ⟨400, Body.err "Invalid signature"⟩ ∧
      (verify_payment envX 9 stateX
        ⟨some "order_1", some "pay_1",
         some (envX.hmacSha256Hex envX.razorpaySecret "order_1|pay_1")⟩).1 = stateX) :=
  verify_payment_spec envX 9 stateX "order_1" "pay_1"
    (envX.hmacSha256Hex envX.razorpaySecret "order_1|pay_1") payX rfl (by decide)

/-- Counterexample to claim C4 as stated: with alice@example.com already
registered, a signup for that same email with the three-character password
abc is answered with the password-length validation error rather than the
email-conflict error, so the conflict answer does not hold regardless of the
password supplied. -/
theorem signup_conflict_counterexample :
    findUserByEmail stateX.users
      (pyLower (pyStrip "alice@example.com")) = some userX ∧
    (signup envX "s2" 7 stateX
        ⟨some "Bob", some "alice@example.com", some "abc"⟩).2 =
      ⟨400, Body.err "Password must be at least 6 characters"⟩ ∧
    (signup envX "s2" 7 stateX
        ⟨some "Bob", some "alice@example.com", some "abc"⟩).2 ≠
      ⟨400, Body.err "Email already registered"⟩ := by
  refine ⟨by decide, by decide, by decide⟩

/-- Claim C4 (amended): the signup handler checks, in order, field presence,
email format, password length, then the duplicate email, and otherwise stores
the user with a salted password hash and answers 201 with a signed session
token.  The conflict error is returned for a registered email whenever the
validation checks pass, for any password of length at least six. -/
theorem signup_spec (env : Env) (salt : String) (now : Nat) (s : AppState)
    (req : SignupReq) (hconn : s.mongodb_connected = true) :
    ((falsyStr req.name || falsyStr req.email || falsyStr req.password) = true →
      (signup env salt now s req).2 = ⟨400, Body.err "Missing required fields"⟩ ∧
      (signup env salt now s req).1 = s) ∧
    ((falsyStr req.name || falsyStr req.email || falsyStr req.password) = false →
      (email_format_ok (pyLower (pyStrip (req.email.getD ""))) = false →
        (signup env salt now s req).2 = ⟨400, Body.err "Invalid email format"⟩ ∧
        (signup env salt now s req).1 = s) ∧
      (email_format_ok (pyLower (pyStrip (req.email.getD ""))) = true →
        ((req.password.getD "").length < 6 →
          (signup env salt now s req).2 =
            ⟨400, Body.err "Password must be at least 6 characters"⟩ ∧
          (signup env salt now s req).1 = s) ∧
        (6 ≤ (req.password.getD "").length →
          (∀ u, findUserByEmail s.users (pyLower (pyStrip (req.email.getD ""))) = some u →
            (signup env salt now s req).2 = ⟨400, Body.err "Email already registered"⟩ ∧
            (signup env salt now s req).1 = s) ∧
          (findUserByEmail s.users (pyLower (pyStrip (req.email.getD ""))) = none →
            (signup env salt now s req).1.users = s.users ++
              [{ user_id := "USER_" ++ toString now,
                 name := pyStrip (req.name.getD ""),
                 email := pyLower (pyStrip (req.email.getD "")),
                 password := env.bcryptHash salt (req.password.getD ""),
                 created_at := now, last_login := none }] ∧
            (signup env salt now s req).2 =
              ⟨201, Body.signupOk ("USER_" ++ toString now)
                (env.jwtEncode ("USER_" ++ toString now)
                  (pyLower (pyStrip (req.email.getD ""))) now)
                "Account created successfully"⟩)))) := by
  by_cases hmiss : (falsyStr req.name || falsyStr req.email || falsyStr req.password) = true
  · refine ⟨fun _ => ?_, fun hn => ?_⟩
    · constructor <;> simp [signup, hmiss]
    · rw [hmiss] at hn
      exact absurd hn (by simp)
  · have hmiss2 : (falsyStr req.name || falsyStr req.email || falsyStr req.password) = false := by
      simpa using hmiss
    refine ⟨fun hc => absurd (hmiss2.symm.trans hc) (by simp), fun _ => ⟨?_, ?_⟩⟩
    · intro hfmt
      constructor <;> simp [signup, hmiss2, hfmt]
    · intro hfmt
      refine ⟨fun hlen => ?_, fun hlen => ⟨fun u hu => ?_, fun hnone => ?_⟩⟩
      · constructor <;> simp [signup, hmiss2, hfmt, hlen]
      · have hlen2 : ¬ (req.password.getD "").length < 6 := by omega
        constructor <;> simp [signup, hmiss2, hfmt, hlen2, hconn, hu]
      · have hlen2 : ¬ (req.password.getD "").length < 6 := by omega
        constructor <;> simp [signup, hmiss2, hfmt, hlen2, hconn, hnone]

/-- Witness for the amended C4 on closed inputs: a duplicate signup for the
registered email with a different valid password is answered with the
conflict error and leaves the state unchanged. -/
theorem signup_spec_witness :
    (signup envX "s2" 7 stateX
        ⟨some "Bob", some "Alice@Example.COM", some "anotherpass"⟩).2 =
      ⟨400, Body.err "Email already registered"⟩ ∧
    (signup envX "s2" 7 stateX
        ⟨some "Bob", some "Alice@Example.COM", some "anotherpass"⟩).1 = stateX :=
  (((signup_spec envX "s2" 7 stateX
      ⟨some "Bob", some "Alice@Example.COM", some "anotherpass"⟩ rfl).2
    (by decide)).2 (by decide)).2 (by decide) |>.1 userX (by decide)

/-! ## Response case analyses per handler, used for the error-code claim -/

theorem signup_resp_cases (env : Env) (salt : String) (now : Nat) (s : AppState)
    (req : SignupReq) :
    (signup env salt now s req).2 = ⟨400, Body.err "Missing required fields"⟩ ∨
    (signup env salt now s req).2 = ⟨400, Body.err "Invalid email format"⟩ ∨
    (signup env salt now s req).2 = ⟨400, Body.err "Password must be at least 6 characters"⟩ ∨
    (signup env salt now s req).2 = ⟨400, Body.err "Email already registered"⟩ ∨
    ((signup env salt now s req).2.code = 201 ∧
      ∀ m, (signup env salt now s req).2.body ≠ Body.err m) ∨
    ((signup env salt now s req).2 = ⟨500, Body.err "Database not connected"⟩ ∧
      s.mongodb_connected = false) := by
  unfold signup
  dsimp only
  repeat' split
  all_goals simp_all

theorem login_resp_cases (env : Env) (now : Nat) (s : AppState) (req : LoginReq) :
    (login env now s req).2 = ⟨400, Body.err "Missing email or password"⟩ ∨
    (login env now s req).2 = ⟨401, Body.err "Invalid email or password"⟩ ∨
    ((login env now s req).2.code = 200 ∧
      ∀ m, (login env now s req).2.body ≠ Body.err m) ∨
    ((login env now s req).2 = ⟨500, Body.err "Database not connected"⟩ ∧
      s.mongodb_connected = false) := by
  unfold login
  dsimp only
  repeat' split
  all_goals simp_all

theorem get_user_resp_cases (s : AppState) (userId : String) :
    ((get_user s userId).2.code = 200 ∧ ∀ m, (get_user s userId).2.body ≠ Body.err m) ∨
    (get_user s userId).2 = ⟨404, Body.err "User not found"⟩ ∨
    ((get_user s userId).2 = ⟨500, Body.err "Database not connected"⟩ ∧
      s.mongodb_connected = false) := by
  unfold get_user
  repeat' split
  all_goals simp_all

theorem verify_token_resp_cases (env : Env) (s : AppState) (token : Option String) :
    (verify_token env s token).2 = ⟨400, Body.err "Token is missing"⟩ ∨
    ((verify_token env s token).2.code = 200 ∧
      ∀ m, (verify_token env s token).2.body ≠ Body.err m) := by
  unfold verify_token
  repeat' split
  all_goals simp_all

theorem predict_resp_cases (userId : String) (now : Nat) (s : AppState)
    (req : PredictReq) :
    ((predict userId now s req).2.code = 400 ∧
      ∃ m, (predict userId now s req).2.body = Body.err m) ∨
    ((predict userId now s req).2.code = 200 ∧
      ∀ m, (predict userId now s req).2.body ≠ Body.err m) := by
  unfold predict finishPredict
  dsimp only
  repeat' split
  all_goals simp_all

theorem create_order_resp_cases (env : Env) (gid uid : String) (now : Nat)
    (s : AppState) (req : OrderReq) :
    ((create_order env gid uid now s req).2 = ⟨500, Body.err "Payment service not configured"⟩ ∧
      s.razorpay_configured = false) ∨
    ((create_order env gid uid now s req).2.code = 200 ∧
      ∀ m, (create_order env gid uid now s req).2.body ≠ Body.err m) := by
  unfold create_order
  dsimp only
  repeat' split
  all_goals simp_all

theorem verify_payment_resp_cases (env : Env) (now : Nat) (s : AppState)
    (req : VerifyReq) :
    ((verify_payment env now s req).2.code = 200 ∧
      ∀ m, (verify_payment env now s req).2.body ≠ Body.err m) ∨
    ((verify_payment env now s req).2.code = 400 ∧
      ∃ m, (verify_payment env now s req).2.body = Body.err m) := by
  unfold verify_payment
  dsimp only
  repeat' split
  all_goals simp_all

/-- The model-unavailable condition never produces an error response: the
predict handler answers 200 with the fallback price. -/
theorem predict_fallback_code (userId : String) (now : Nat) (s : AppState)
    (req : PredictReq) (hm : s.model = none) (hreq : firstMissingField req = none) :
    (predict userId now s req).2.code = 200 := by
  rcases hn : req.name with _ | nm
  · simp [firstMissingField, hn] at hreq
  rcases hyr : req.year with _ | yr
  · simp [firstMissingField, hn, hyr] at hreq
  rcases hk : req.km_driven with _ | km
  · simp [firstMissingField, hn, hyr, hk] at hreq
  rcases hf : req.fuel with _ | fu
  · simp [firstMissingField, hn, hyr, hk, hf] at hreq
  rcases hst : req.seller_type with _ | st
  · simp [firstMissingField, hn, hyr, hk, hf, hst] at hreq
  rcases htr : req.transmission with _ | tr
  · simp [firstMissingField, hn, hyr, hk, hf, hst, htr] at hreq
  rcases how : req.owner with _ | ow
  · simp [firstMissingField, hn, hyr, hk, hf, hst, htr, how] at hreq
  simp [predict, hreq, hn, hyr, hk, hf, hst, htr, how, hm, finishPredict]

/-- Counterexample to claim C8 as stated: a valid signup against a state
whose database connection failed while the model loaded fine is answered
with an error envelope carrying status 500, a condition that is not the
model-unavailable one (the model is present), so 500 is not reserved for
model unavailability - and this boundary error is not a 400 either. -/
theorem error_codes_counterexample :
    (signup envX "s1" 3 stateNoDbX
        ⟨some "Bob", some "bob@example.com", some "longpass"⟩).2 =
      ⟨500, Body.err "Database not connected"⟩ ∧
    stateNoDbX.model.isSome = true := by
  refine ⟨by decide, rfl⟩

/-- Claim C8 (amended): every error produced by a handler is the uniform
envelope with a 400, 401, 404 or 500 code; a 500 arises only from the
database-not-connected condition (signup, login, profile) or the
payment-gateway-not-configured condition (create-order), never from model
unavailability - a predict call with the model missing still answers 200. -/
theorem error_status_codes (env : Env) (s : AppState) (op : Op) :
    ((step env s op).2.code = 500 →
      ((step env s op).2.body = Body.err "Database not connected" ∧
        s.mongodb_connected = false) ∨
      ((step env s op).2.body = Body.err "Payment service not configured" ∧
        s.razorpay_configured = false)) ∧
    (∀ m, (step env s op).2.body = Body.err m →
      (step env s op).2.code = 400 ∨ (step env s op).2.code = 401 ∨
        (step env s op).2.code = 404 ∨ (step env s op).2.code = 500) ∧
    (∀ (userId : String) (now : Nat) (req : PredictReq),
      s.model = none → firstMissingField req = none →
      (step env s (Op.opPredict userId now req)).2.code = 200) := by
  refine ⟨?_, ?_, ?_⟩
  · cases op with
    | opSignup salt now req =>
      rcases signup_resp_cases env salt now s req with h | h | h | h | ⟨h1, h2⟩ | ⟨h1, h2⟩ <;>
        simp_all [step]
    | opLogin now req =>
      rcases login_resp_cases env now s req with h | h | ⟨h1, h2⟩ | ⟨h1, h2⟩ <;>
        simp_all [step]
    | opLogout => simp [step, logout]
    | opGetUser userId =>
      rcases get_user_resp_cases s userId with ⟨h1, h2⟩ | h | ⟨h1, h2⟩ <;>
        simp_all [step]
    | opVerifyToken token =>
      rcases verify_token_resp_cases env s token with h | ⟨h1, h2⟩ <;>
        simp_all [step]
    | opPredict userId now req =>
      rcases predict_resp_cases userId now s req with ⟨h1, h2⟩ | ⟨h1, h2⟩ <;>
        simp_all [step]
    | opCreateOrder gid uid now req =>
      rcases create_order_resp_cases env gid uid now s req with ⟨h1, h2⟩ | ⟨h1, h2⟩ <;>
        simp_all [step]
    | opVerifyPayment now req =>
      rcases verify_payment_resp_cases env now s req with ⟨h1, h2⟩ | ⟨h1, h2⟩ <;>
        simp_all [step]
    | opBookInspection userId now req => simp [step, book_inspection]
    | opHealth => simp [step, health_check]
  · intro m
    cases op with
    | opSignup salt now req =>
      rcases signup_resp_cases env salt now s req with h | h | h | h | ⟨h1, h2⟩ | ⟨h1, h2⟩ <;>
        simp_all [step]
    | opLogin now req =>
      rcases login_resp_cases env now s req with h | h | ⟨h1, h2⟩ | ⟨h1, h2⟩ <;>
        simp_all [step]
    | opLogout => simp [step, logout]
    | opGetUser userId =>
      rcases get_user_resp_cases s userId with ⟨h1, h2⟩ | h | ⟨h1, h2⟩ <;>
        simp_all [step]
    | opVerifyToken token =>
      rcases verify_token_resp_cases env s token with h | ⟨h1, h2⟩ <;>
        simp_all [step]
    | opPredict userId now req =>
      rcases predict_resp_cases userId now s req with ⟨h1, h2⟩ | ⟨h1, h2⟩ <;>
        simp_all [step]
    | opCreateOrder gid uid now req =>
      rcases create_order_resp_cases env gid uid now s req with ⟨h1, h2⟩ | ⟨h1, h2⟩ <;>
        simp_all [step]
    | opVerifyPayment now req =>
      rcases verify_payment_resp_cases env now s req with ⟨h1, h2⟩ | ⟨h1, h2⟩ <;>
        simp_all [step]
    | opBookInspection userId now req => simp [step, book_inspection]
    | opHealth => simp [step, health_check]
  · intro userId now req hm hreq
    exact predict_fallback_code userId now s req hm hreq

/-- Witness for the amended C8 on closed inputs, discharging the 500
hypothesis on the disconnected-database state. -/
theorem error_status_codes_witness :
    ((step envX stateNoDbX
        (Op.opSignup "s1" 3 ⟨some "Bob", some "bob@example.com", some "longpass"⟩)).2.body =
          Body.err "Database not connected" ∧
      stateNoDbX.mongodb_connected = false) ∨
    ((step envX stateNoDbX
        (Op.opSignup "s1" 3 ⟨some "Bob", some "bob@example.com", some "longpass"⟩)).2.body =
          Body.err "Payment service not configured" ∧
      stateNoDbX.razorpay_configured = false) :=
  (error_status_codes envX stateNoDbX
    (Op.opSignup "s1" 3 ⟨some "Bob", some "bob@example.com", some "longpass"⟩)).1
    (by decide)

/-! ## Which handlers touch the payments collection -/

theorem signup_payments (env : Env) (salt : String) (now : Nat) (s : AppState)
    (req : SignupReq) : (signup env salt now s req).1.payments = s.payments := by
  unfold signup
  dsimp only
  repeat' split
  all_goals rfl

theorem login_payments (env : Env) (now : Nat) (s : AppState) (req : LoginReq) :
    (login env now s req).1.payments = s.payments := by
  unfold login
  dsimp only
  repeat' split
  all_goals rfl

theorem get_user_state (s : AppState) (userId : String) :
    (get_user s userId).1 = s := by
  unfold get_user
  repeat' split
  all_goals rfl

theorem verify_token_state (env : Env) (s : AppState) (token : Option String) :
    (verify_token env s token).1 = s := by
  unfold verify_token
  repeat' split
  all_goals rfl

theorem predict_payments (userId : String) (now : Nat) (s : AppState)
    (req : PredictReq) : (predict userId now s req).1.payments = s.payments := by
  unfold predict finishPredict
  dsimp only
  repeat' split
  all_goals rfl

theorem book_inspection_payments (userId : String) (now : Nat) (s : AppState)
    (req : BookingReq) : (book_inspection userId now s req).1.payments = s.payments := by
  unfold book_inspection
  dsimp only
  repeat' split
  all_goals rfl

theorem create_order_payments (env : Env) (gid uid : String) (now : Nat)
    (s : AppState) (req : OrderReq) :
    (create_order env gid uid now s req).1.payments = s.payments ∨
    ∃ doc : PaymentRec, doc.status = "created" ∧
      (create_order env gid uid now s req).1.payments = s.payments ++ [doc] := by
  unfold create_order
  dsimp only
  repeat' split
  · left
    rfl
  · right
    exact ⟨_, rfl, rfl⟩
  · left
    rfl

theorem mem_updatePayment (ps : List PaymentRec) (k : String)
    (f : PaymentRec → PaymentRec) (p : PaymentRec)
    (hp : p ∈ updatePayment ps k f) : p ∈ ps ∨ ∃ q, q ∈ ps ∧ p = f q := by
  induction ps with
  | nil => simp [updatePayment] at hp
  | cons q rest ih =>
    simp only [updatePayment] at hp
    split at hp
    · rcases List.mem_cons.mp hp with h | h
      · right
        exact ⟨q, List.mem_cons_self q rest, h⟩
      · left
        exact List.mem_cons_of_mem _ h
    · rcases List.mem_cons.mp hp with h | h
      · left
        rw [h]
        exact List.mem_cons_self q rest
      · rcases ih h with h2 | ⟨q2, hq2, he⟩
        · left
          exact List.mem_cons_of_mem _ h2
        · right
          exact ⟨q2, List.mem_cons_of_mem _ hq2, he⟩

theorem verify_payment_payments (env : Env) (now : Nat) (s : AppState)
    (req : VerifyReq) :
    (verify_payment env now s req).1.payments = s.payments ∨
    ∃ oid pid sig, req = ⟨some oid, some pid, some sig⟩ ∧
      (env.hmacSha256Hex env.razorpaySecret (oid ++ "|" ++ pid) == sig) = true ∧
      (verify_payment env now s req).1.payments =
        updatePayment s.payments oid (fun p =>
          { p with payment_id := some pid, signature := some sig,
                   status := "verified", verified_at := some now }) := by
  rcases req with ⟨o, pi, si⟩
  rcases o with _ | oid
  · left
    rfl
  rcases pi with _ | pid
  · left
    rfl
  rcases si with _ | sig
  · left
    rfl
  by_cases hbeq : (env.hmacSha256Hex env.razorpaySecret (oid ++ "|" ++ pid) == sig) = true
  · by_cases hconn : s.mongodb_connected = true
    · right
      exact ⟨oid, pid, sig, rfl, hbeq, by simp [verify_payment, hbeq, hconn]⟩
    · left
      simp [verify_payment, hbeq, hconn]
  · left
    have hne : ¬ env.hmacSha256Hex env.razorpaySecret (oid ++ "|" ++ pid) = sig := by
      simpa using hbeq
    simp [verify_payment, hne]

/-- The status invariant holds at startup. -/
theorem statusInv_initState (connected rz : Bool) (m : Option ModelArtifacts) :
    statusInv (initState connected m rz) := by
  intro p hp
  simp [initState] at hp

/-- Every handler preserves the status invariant, so it holds in every
reachable state. -/
theorem statusInv_step (env : Env) (s : AppState) (op : Op)
    (hinv : statusInv s) : statusInv (step env s op).1 := by
  cases op with
  | opSignup salt now req =>
    intro p hp
    rw [step, signup_payments] at hp
    exact hinv p hp
  | opLogin now req =>
    intro p hp
    rw [step, login_payments] at hp
    exact hinv p hp
  | opLogout =>
    exact hinv
  | opGetUser userId =>
    intro p hp
    rw [step, get_user_state] at hp
    exact hinv p hp
  | opVerifyToken token =>
    intro p hp
    rw [step, verify_token_state] at hp
    exact hinv p hp
  | opPredict userId now req =>
    intro p hp
    rw [step, predict_payments] at hp
    exact hinv p hp
  | opCreateOrder gid uid now req =>
    intro p hp
    rw [step] at hp
    rcases create_order_payments env gid uid now s req with h | ⟨doc, hdoc, h⟩
    · rw [h] at hp
      exact hinv p hp
    · rw [h] at hp
      rcases List.mem_append.mp hp with h2 | h2
      · exact hinv p h2
      · left
        rw [List.mem_singleton.mp h2]
        exact hdoc
  | opVerifyPayment now req =>
    intro p hp
    rw [step] at hp
    rcases verify_payment_payments env now s req with h | ⟨oid, pid, sig, _hr, _hb, h⟩
    · rw [h] at hp
      exact hinv p hp
    · rw [h] at hp
      rcases mem_updatePayment _ _ _ _ hp with h2 | ⟨q, _hq, he⟩
      · exact hinv p h2
      · right
        rw [he]
  | opBookInspection userId now req =>
    intro p hp
    rw [step, book_inspection_payments] at hp
    exact hinv p hp
  | opHealth =>
    exact hinv

/-- Claim C6: in a state whose stored orders carry only the statuses created
and verified (true of every reachable state by statusInv_initState and
statusInv_step), the only operation that changes the status of a stored
order is payment verification with a valid signature for that order, and the
change is created to verified; once verified, no operation changes it back,
so the transition happens at most once. -/
theorem order_status_transition (env : Env) (s : AppState) (op : Op)
    (k : String) (p p2 : PaymentRec)
    (hinv : statusInv s)
    (hp : findPayment s.payments k = some p)
    (hp2 : findPayment (step env s op).1.payments k = some p2)
    (hch : p.status ≠ p2.status) :
    p.status = "created" ∧ p2.status = "verified" ∧
    ∃ now pid sig, op = Op.opVerifyPayment now ⟨some k, some pid, some sig⟩ ∧
      env.hmacSha256Hex env.razorpaySecret (k ++ "|" ++ pid) = sig := by
  cases op with
  | opSignup salt now req =>
    rw [step, signup_payments, hp] at hp2
    exact absurd (congrArg PaymentRec.status (Option.some.inj hp2)) hch
  | opLogin now req =>
    rw [step, login_payments, hp] at hp2
    exact absurd (congrArg PaymentRec.status (Option.some.inj hp2)) hch
  | opLogout =>
    simp only [step, logout] at hp2
    rw [hp] at hp2
    exact absurd (congrArg PaymentRec.status (Option.some.inj hp2)) hch
  | opGetUser userId =>
    rw [step, get_user_state, hp] at hp2
    exact absurd (congrArg PaymentRec.status (Option.some.inj hp2)) hch
  | opVerifyToken token =>
    rw [step, verify_token_state, hp] at hp2
    exact absurd (congrArg PaymentRec.status (Option.some.inj hp2)) hch
  | opPredict userId now req =>
    rw [step, predict_payments, hp] at hp2
    exact absurd (congrArg PaymentRec.status (Option.some.inj hp2)) hch
  | opCreateOrder gid uid now req =>
    rw [step] at hp2
    rcases create_order_payments env gid uid now s req with h | ⟨doc, _hdoc, h⟩
    · rw [h, hp] at hp2
      exact absurd (congrArg PaymentRec.status (Option.some.inj hp2)) hch
    · rw [h, findPayment_append_left s.payments doc k p hp] at hp2
      exact absurd (congrArg PaymentRec.status (Option.some.inj hp2)) hch
  | opVerifyPayment now req =>
    rw [step] at hp2
    rcases verify_payment_payments env now s req with h | ⟨oid, pid, sig, hr, hb, h⟩
    · rw [h, hp] at hp2
      exact absurd (congrArg PaymentRec.status (Option.some.inj hp2)) hch
    · rw [h] at hp2
      by_cases hk : k = oid
      · subst hk
        rw [findPayment_updatePayment_self s.payments k
          (fun q => { q with payment_id := some pid, signature := some sig,
                             status := "verified", verified_at := some now })
          (fun q => rfl), hp] at hp2
        have hp2e := Option.some.inj hp2
        have hst2 : p2.status = "verified" := by
          rw [← hp2e]
        rcases hinv p (mem_of_findPayment s.payments k p hp) with hcr | hver
        · exact ⟨hcr, hst2, now, pid, sig, by rw [hr], by simpa using hb⟩
        · exact absurd (hver.trans hst2.symm) hch
      · rw [findPayment_updatePayment_ne s.payments oid k
          (fun q => { q with payment_id := some pid, signature := some sig,
                             status := "verified", verified_at := some now })
          (fun q => rfl) hk, hp] at hp2
        exact absurd (congrArg PaymentRec.status (Option.some.inj hp2)) hch
  | opBookInspection userId now req =>
    rw [step, book_inspection_payments, hp] at hp2
    exact absurd (congrArg PaymentRec.status (Option.some.inj hp2)) hch
  | opHealth =>
    simp only [step, health_check] at hp2
    rw [hp] at hp2
    exact absurd (congrArg PaymentRec.status (Option.some.inj hp2)) hch

/-- Witness for C6 on closed inputs: the concrete created order changes to
verified under a verify-payment operation carrying the matching signature. -/
theorem order_status_transition_witness :
    payX.status = "created" ∧ payVerifiedX.status = "verified" ∧
    ∃ now pid sig,
      Op.opVerifyPayment 9 ⟨some "order_1", some "pay_1", some sigX⟩ =
        Op.opVerifyPayment now ⟨some "order_1", some pid, some sig⟩ ∧
      envX.hmacSha256Hex envX.razorpaySecret ("order_1" ++ "|" ++ pid) = sig :=
  order_status_transition envX stateX
    (Op.opVerifyPayment 9 ⟨some "order_1", some "pay_1", some sigX⟩)
    "order_1" payX payVerifiedX
    (by intro p hp
        have hm := List.mem_singleton.mp hp
        subst hm
        left
        rfl)
    (by decide) (by decide) (by decide)

end CarValueAI
